import Mathlib

/-!
Shallow embedding of the wdt standalone command-line orchestrator
(`wdtCmdLine.cpp`): item-list reading from stdin, the abort watchdog,
mode selection, and the main dispatcher, together with theorems about
the properties the orchestrator is meant to satisfy.
-/

deriving instance DecidableEq for Except

namespace WdtCmdLine

/-! ## Item-list reader (explicit-file mode)

The source reads stdin with `std::getline`, splits each line on a tab
with `folly::split('\t', line, fields, true)` (the final `true` drops
empty pieces), rejects lines with zero or more than two fields with
`LOG(FATAL)`, and otherwise builds a `FileInfo{name, filesize}` where
the size is `folly::to<int64_t>(fields[1])` when present and `-1`
otherwise. -/

/-- The `FileInfo(name, filesize)` record as constructed at
`fileInfo.emplace_back`. -/
structure FileInfo where
  name : String
  filesize : Int
deriving DecidableEq, Repr

/-- Split a character list on a separator character; every separator
occurrence ends a (possibly empty) piece. -/
def splitChar (sep : Char) : List Char → List Char → List (List Char)
  | [], acc => [acc.reverse]
  | c :: cs, acc =>
    if c = sep then acc.reverse :: splitChar sep cs []
    else splitChar sep cs (c :: acc)

/-- Model of `folly::split` on a tab with `ignoreEmpty = true` (the
fourth argument): split on tabs and drop the empty pieces. -/
def splitFields (line : String) : List String :=
  ((splitChar '\t' line.toList []).filter (fun f => f ≠ [])).map
    (fun cs => String.mk cs)

/-- Model of `std::getline` applied repeatedly to an input stream: lines are the
pieces between newline characters; a trailing newline does not produce an
extra empty line, and an empty stream yields no lines. -/
def getLines (input : String) : List String :=
  match input.toList with
  | [] => []
  | cs =>
    let parts := splitChar '\n' cs []
    (if cs.getLast? = some '\n' then parts.dropLast else parts).map
      (fun l => String.mk l)

/-- Decimal digit value of a character, if it is a digit. -/
def decDigit (c : Char) : Option Nat :=
  if c.isDigit then some (c.toNat - 48) else none

/-- Accumulate base-10 digits; any non-digit character fails. -/
def parseDecAux : List Char → Nat → Option Nat
  | [], acc => some acc
  | c :: cs, acc =>
    match decDigit c with
    | some d => parseDecAux cs (10 * acc + d)
    | none => none

/-- Model of `folly::to` at `int64_t` on a string field: an optional leading minus sign
followed by at least one base-10 digit; any other character throws
(`none` here). -/
def follyToInt (s : String) : Option Int :=
  match s.toList with
  | [] => none
  | '-' :: cs =>
    if cs = [] then none
    else (parseDecAux cs 0).map (fun n => -(n : Int))
  | cs => (parseDecAux cs 0).map (fun n => (n : Int))

/-- The loop body at lines 178–185 of `wdtCmdLine.cpp` for one line:
`LOG(FATAL)` (modelled as `Except.error line`) when the split yields zero
or more than two fields, otherwise a `FileInfo` whose size is the parsed
second field or `-1`. An unparsable size field makes `folly::to` throw,
which also kills the process. -/
def parseLine (line : String) : Except String FileInfo :=
  let fields := splitFields line
  if fields.length = 0 ∨ 2 < fields.length then Except.error line
  else
    match fields with
    | [n] => Except.ok ⟨n, -1⟩
    | n :: sz :: _ =>
      match follyToInt sz with
      | some v => Except.ok ⟨n, v⟩
      | none => Except.error line
    | [] => Except.error line

/-- The `while (std::getline(...))` loop: parse each line in order; the
first fatal line kills the process before any item is produced. -/
def readFileInfoList : List String → Except String (List FileInfo)
  | [] => Except.ok []
  | l :: rest =>
    match parseLine l with
    | Except.error m => Except.error m
    | Except.ok fi =>
      match readFileInfoList rest with
      | Except.error m => Except.error m
      | Except.ok fis => Except.ok (fi :: fis)

/-- The whole `if (FLAGS_files) { ... }` block: when explicit-file mode is
off the item list is left empty and stdin is not read. -/
def readStdinItems (files : Bool) (input : String) :
    Except String (List FileInfo) :=
  if files then readFileInfoList (getLines input) else Except.ok []

example : splitFields "a.txt\t100" = ["a.txt", "100"] := by decide
example : splitFields "a.txt\t" = ["a.txt"] := by decide
example : getLines "a.txt\t100\nb.txt\n" = ["a.txt\t100", "b.txt"] := by
  decide
example : parseLine "a.txt\t100" = Except.ok ⟨"a.txt", 100⟩ := by decide
example : readFileInfoList (getLines "a.txt\t100\nb.txt\n") =
    Except.ok [⟨"a.txt", 100⟩, ⟨"b.txt", -1⟩] := by decide

/-! ## Abort watchdog (`setUpAbort` / `cancelAbort` / `AbortChecker`)

The watchdog is a background thread created by `std::async` that waits on
`abortCondVar` under `abortMutex` for `abort_after_seconds`; on timeout it
stores `true` into the static `std::atomic<bool> abortTrigger`, and on a
notify (from `cancelAbort`) it does nothing.  `AbortChecker::shouldAbort`
loads the atomic.  The concurrent behaviour is embedded as a transition
system: the state records whether the checker was installed on the role,
the background thread's progress, and the trigger flag; the events are
the wait timing out, `cancelAbort`'s notify, and a `shouldAbort` read. -/

/-- Progress of the `std::async` background lambda. -/
inductive ThreadState where
  | notStarted
  | waiting
  | doneNormal
  | doneAbort
deriving DecidableEq, Repr

/-- The process-wide watchdog state: `chkr` installed on the role or not,
the background thread, and the `abortTrigger` atomic. -/
structure WatchState where
  checkerInstalled : Bool
  thread : ThreadState
  abortTrigger : Bool
deriving DecidableEq, Repr

/-- Before `setUpAbort` runs: no checker, no thread, trigger `false`
(the static atomic is initialised `{false}`). -/
def initWatchState : WatchState := ⟨false, ThreadState.notStarted, false⟩

/-- Model of `setUpAbort`: when `abort_after_seconds <= 0` it returns at once and
changes nothing; otherwise it installs the checker via `setAbortChecker`
and launches the waiting background thread. -/
def setUpAbortW (abortSeconds : Int) (s : WatchState) : WatchState :=
  if abortSeconds ≤ 0 then s
  else { checkerInstalled := true, thread := ThreadState.waiting,
         abortTrigger := s.abortTrigger }

/-- The wait on `abortCondVar` times out: only a waiting thread reacts, by
storing `true` into `abortTrigger` and finishing. -/
def timeoutStep (s : WatchState) : WatchState :=
  match s.thread with
  | ThreadState.waiting =>
    { s with thread := ThreadState.doneAbort, abortTrigger := true }
  | _ => s

/-- Model of `cancelAbort`: take `abortMutex`, `notify_one`.  A waiting thread
wakes with `no_timeout` and finishes without touching the trigger; in
every other state the notify is lost and nothing changes. -/
def cancelStep (s : WatchState) : WatchState :=
  match s.thread with
  | ThreadState.waiting => { s with thread := ThreadState.doneNormal }
  | _ => s

/-- Model of the query `shouldAbort` of `AbortChecker`: load the shared
atomic. -/
def shouldAbort (s : WatchState) : Bool := s.abortTrigger

/-- Events that can interleave after `setUpAbort` returns. -/
inductive WEvent where
  | timeout
  | cancel
  | readAbort
deriving DecidableEq, Repr

/-- One interleaving step. -/
def wstep (s : WatchState) (e : WEvent) : WatchState :=
  match e with
  | WEvent.timeout => timeoutStep s
  | WEvent.cancel => cancelStep s
  | WEvent.readAbort => s

/-- Run a whole interleaving. -/
def runEvents (s : WatchState) (evs : List WEvent) : WatchState :=
  evs.foldl wstep s

/-- Recognises the timeout event. -/
def isTimeoutEv : WEvent → Bool
  | WEvent.timeout => true
  | _ => false

/-- Recognises the waiting thread state. -/
def isWaitingTh : ThreadState → Bool
  | ThreadState.waiting => true
  | _ => false

/-- A step never changes `initWatchState`: with no thread started there
is nothing to time out or wake. -/
theorem wstep_initWatchState (e : WEvent) :
    wstep initWatchState e = initWatchState := by
  cases e <;> rfl

/-- Hence whole interleavings leave `initWatchState` unchanged. -/
theorem runEvents_initWatchState (evs : List WEvent) :
    runEvents initWatchState evs = initWatchState := by
  induction evs with
  | nil => rfl
  | cons e evs ih =>
    show runEvents (wstep initWatchState e) evs = initWatchState
    rw [wstep_initWatchState]
    exact ih

/-! ## Mode selection and the main dispatcher

`main` (lines 117–209) branches on `FLAGS_parse_transfer_log`, then on
`FLAGS_destination.empty()`, then (receiver side) on
`FLAGS_run_as_daemon`.  The calls `main` makes into the external transfer
engine are recorded as a trace of events; the engine's answers
(`registerPorts`, report error codes, `parseAndPrint`) are supplied by an
oracle.  `ErrorCode` values are integers with `OK = 0` (success). -/

/-- Modelled from the spec: the `ErrorCode` enum lives in a header outside
this file; per the spec the success value `OK` is the integer 0. -/
def OK : Nat := 0

/-- Modelled from the spec: the generic `ERROR` code used for a log-repair
failure is some fixed non-success value (the `ErrorCode` enum itself lives
in a header outside this file); only `ERROR ≠ OK` matters here. -/
def ERROR : Nat := 1

/-- The four mutually exclusive execution modes. -/
inductive ExecutionMode where
  | LogRepair
  | ReceiveOnce
  | ReceiveForever
  | Send
deriving DecidableEq, Repr

/-- The branch structure of `main`: `if (FLAGS_parse_transfer_log) … else
if (FLAGS_destination.empty()) { … if (!FLAGS_run_as_daemon) … else … }
else …`, as a function of the resolved configuration triple. -/
def selectMode (parseTransferLog destinationEmpty runAsDaemon : Bool) :
    ExecutionMode :=
  if parseTransferLog then ExecutionMode.LogRepair
  else if destinationEmpty then
    if runAsDaemon then ExecutionMode.ReceiveForever
    else ExecutionMode.ReceiveOnce
  else ExecutionMode.Send

/-- The command-line flags `main` consults. -/
structure Flags where
  run_as_daemon : Bool
  directory : String
  files : Bool
  destination : String
  parse_transfer_log : Bool
  transfer_id : String
  protocol_version : Int
  abort_after_seconds : Int
  include_regex : String
  exclude_regex : String
  prune_dir_regex : String
deriving Repr

/-- Oracle for the external transfer engine and log-repair collaborator:
how many ports `registerPorts` binds, the error codes of the receiver's
and the sender's completion reports, and `parseAndPrint`'s result. -/
structure Engine where
  registerPortsResult : Nat
  receiverReportCode : Nat
  senderReportCode : Nat
  parseAndPrintResult : Bool
deriving Repr

/-- Calls `main` makes into its collaborators, in program order. -/
inductive Event where
  | parseAndPrint (ok : Bool)
  | mkReceiver (dir : String)
  | setTransferId (id : String)
  | setProtocolVersion (v : Int)
  | registerPorts (numSuccess : Nat)
  | setUpAbort (secs : Int)
  | transferAsync
  | finish (code : Nat)
  | runForever
  | mkSender (dest : String) (dir : String) (fileInfo : List FileInfo)
  | transfer (code : Nat)
  | setIncludeRegex (r : String)
  | setExcludeRegex (r : String)
  | setPruneDirRegex (r : String)
  | cancelAbort
deriving DecidableEq, Repr

/-- What one run of `main` did: the calls it made and either a normal
exit status (`Except.ok`) or a `LOG(FATAL)` abort on the given stdin line
(`Except.error`). -/
structure RunResult where
  trace : List Event
  outcome : Except String Nat
deriving Repr

/-- Model of `main` after flag parsing (lines 142–208), as a function of the flags,
the engine oracle and the stdin contents. -/
def mainRun (f : Flags) (eng : Engine) (input : String) : RunResult :=
  if f.parse_transfer_log then
    { trace := [Event.parseAndPrint eng.parseAndPrintResult,
                Event.cancelAbort],
      outcome := Except.ok (if eng.parseAndPrintResult then OK else ERROR) }
  else if f.destination = "" then
    let t1 : List Event :=
      [Event.mkReceiver f.directory, Event.setTransferId f.transfer_id] ++
      (if 0 < f.protocol_version then
        [Event.setProtocolVersion f.protocol_version] else []) ++
      [Event.registerPorts eng.registerPortsResult]
    if eng.registerPortsResult = 0 then
      { trace := t1, outcome := Except.ok 0 }
    else
      let t2 := t1 ++ [Event.setUpAbort f.abort_after_seconds]
      if ¬f.run_as_daemon then
        { trace := t2 ++ [Event.transferAsync,
                          Event.finish eng.receiverReportCode,
                          Event.cancelAbort],
          outcome := Except.ok eng.receiverReportCode }
      else
        { trace := t2 ++ [Event.runForever, Event.cancelAbort],
          outcome := Except.ok OK }
  else
    match readStdinItems f.files input with
    | Except.error l => { trace := [], outcome := Except.error l }
    | Except.ok fileInfo =>
      { trace :=
          [Event.mkSender f.destination f.directory fileInfo,
           Event.setUpAbort f.abort_after_seconds,
           Event.setTransferId f.transfer_id] ++
          (if 0 < f.protocol_version then
            [Event.setProtocolVersion f.protocol_version] else []) ++
          [Event.setIncludeRegex f.include_regex,
           Event.setExcludeRegex f.exclude_regex,
           Event.setPruneDirRegex f.prune_dir_regex,
           Event.transfer eng.senderReportCode,
           Event.cancelAbort],
        outcome := Except.ok eng.senderReportCode }

/-- Recognises the `setUpAbort` call. -/
def isArm : Event → Bool
  | Event.setUpAbort _ => true
  | _ => false

/-- Recognises the calls that start a transfer running:
`transferAsync` (receive once), `transfer` (send), `runForever`. -/
def isTransferStart : Event → Bool
  | Event.transferAsync => true
  | Event.transfer _ => true
  | Event.runForever => true
  | _ => false

/-- Recognises the returns of a transfer-running call: `finish`
(receive once), `transfer` (send), `runForever` (should it return). -/
def isTransferEnd : Event → Bool
  | Event.finish _ => true
  | Event.transfer _ => true
  | Event.runForever => true
  | _ => false

/-- Recognises the `cancelAbort` call. -/
def isCancel : Event → Bool
  | Event.cancelAbort => true
  | _ => false

/-- Recognises the calls that read a completion report. -/
def readsReport : Event → Bool
  | Event.finish _ => true
  | Event.transfer _ => true
  | _ => false

/-- Recognises the `setProtocolVersion` call. -/
def isSetProtocolVersion : Event → Bool
  | Event.setProtocolVersion _ => true
  | _ => false

/-- Index of the first event satisfying `p`. -/
def findIdx (p : Event → Bool) : List Event → Option Nat
  | [] => none
  | e :: tr => if p e then some 0 else (findIdx p tr).map (· + 1)

/-- The trace arms the watchdog strictly before the transfer-running call
starts and cancels it strictly after that call returns. -/
def WatchdogBracket (tr : List Event) : Prop :=
  ∃ a s e c,
    findIdx isArm tr = some a ∧
    findIdx isTransferStart tr = some s ∧
    findIdx isTransferEnd tr = some e ∧
    findIdx isCancel tr = some c ∧
    a < s ∧ e < c

/-- Number of events satisfying `p` in a trace. -/
def countEv (p : Event → Bool) : List Event → Nat
  | [] => 0
  | e :: tr => (if p e then 1 else 0) + countEv p tr

/-! ## Theorems about the claims -/

/-- C1: mode selection is a pure function of
`{logRepair, destinationEmpty, daemon}`: `logRepair = true` gives
LogRepair whatever the other flags are; otherwise an empty destination
gives ReceiveForever when daemon is set and ReceiveOnce when it is not,
and a non-empty destination gives Send; being a total function into a
four-element type, exactly one branch is selected per run. -/
theorem C1_mode_selection_pure :
    (∀ destinationEmpty daemon : Bool,
      selectMode true destinationEmpty daemon = ExecutionMode.LogRepair) ∧
    selectMode false true true = ExecutionMode.ReceiveForever ∧
    selectMode false true false = ExecutionMode.ReceiveOnce ∧
    (∀ daemon : Bool,
      selectMode false false daemon = ExecutionMode.Send) ∧
    (∀ logRepair destinationEmpty daemon : Bool,
      ∃! m : ExecutionMode,
        selectMode logRepair destinationEmpty daemon = m) := by
  refine ⟨fun _ _ => rfl, rfl, rfl, fun _ => rfl, ?_⟩
  intro p d dm
  exact ⟨selectMode p d dm, rfl, fun m hm => hm.symm⟩

/-- C2 (code evaluation at the failing input): with an empty destination
and `registerPorts()` binding zero ports, `main` stops before any
transfer call — the trace ends at `registerPorts` — but its exit status
is the literal `0`, which equals the success code `OK`, not a distinct
"no ports" status. -/
theorem C2_no_ports_exit_is_success_code :
    mainRun
      { run_as_daemon := false, directory := ".", files := false,
        destination := "", parse_transfer_log := false, transfer_id := "",
        protocol_version := 0, abort_after_seconds := 0,
        include_regex := "", exclude_regex := "", prune_dir_regex := "" }
      { registerPortsResult := 0, receiverReportCode := 3,
        senderReportCode := 4, parseAndPrintResult := true } "" =
      { trace := [Event.mkReceiver ".", Event.setTransferId "",
                  Event.registerPorts 0],
        outcome := Except.ok 0 } ∧
    OK = 0 := by
  exact ⟨rfl, rfl⟩

/-- C4: for every configured timeout `≤ 0`, `setUpAbort` is a no-op: the
state is unchanged (in particular no abort checker is installed on the
role and the background thread is never started), and along every
interleaving of later events `shouldAbort()` stays `false`. -/
theorem C4_nonpositive_timeout_noop (secs : Int) (h : secs ≤ 0) :
    (∀ s : WatchState, setUpAbortW secs s = s) ∧
    (setUpAbortW secs initWatchState).checkerInstalled = false ∧
    (setUpAbortW secs initWatchState).thread = ThreadState.notStarted ∧
    ∀ evs : List WEvent,
      shouldAbort (runEvents (setUpAbortW secs initWatchState) evs) =
        false := by
  have hid : ∀ s : WatchState, setUpAbortW secs s = s := by
    intro s
    unfold setUpAbortW
    rw [if_pos h]
  refine ⟨hid, ?_, ?_, ?_⟩
  · rw [hid]; rfl
  · rw [hid]; rfl
  · intro evs
    rw [hid, runEvents_initWatchState]
    rfl

/-- Witness for C4 at timeout `0` and an interleaving exercising every
event. -/
theorem C4_witness :
    shouldAbort (runEvents (setUpAbortW 0 initWatchState)
      [WEvent.timeout, WEvent.cancel, WEvent.readAbort]) = false :=
  (C4_nonpositive_timeout_noop 0 (by decide)).2.2.2
    [WEvent.timeout, WEvent.cancel, WEvent.readAbort]

/-- C5: the abort trigger is monotonic: it starts `false`, arming the
watchdog never changes it, a step raises it exactly when the timeout
event hits the waiting thread (so it is written at most once, by the
watchdog, and never reset), and `shouldAbort` is precisely a read of this
single shared state. -/
theorem C5_abort_trigger_monotonic :
    shouldAbort initWatchState = false ∧
    (∀ (secs : Int) (s : WatchState),
      (setUpAbortW secs s).abortTrigger = s.abortTrigger) ∧
    (∀ (s : WatchState) (e : WEvent),
      (wstep s e).abortTrigger =
        (s.abortTrigger || (isTimeoutEv e && isWaitingTh s.thread))) ∧
    (∀ s : WatchState, shouldAbort s = s.abortTrigger) := by
  refine ⟨rfl, ?_, ?_, fun _ => rfl⟩
  · intro secs s
    unfold setUpAbortW
    split <;> rfl
  · intro s e
    obtain ⟨c, th, tr⟩ := s
    cases e <;> cases th <;>
      simp [wstep, timeoutStep, cancelStep, isTimeoutEv, isWaitingTh]

/-- C8: `cancelAbort` never changes the trigger (so it never causes an
expiry action), is idempotent, is safe when the watchdog was never armed
and when it has already expired, and is mutually exclusive with expiry:
after a cancel the timeout has no effect, and after an expiry a cancel
has no effect — at most one of the two takes effect.  (In the model,
non-blocking and non-throwing are reflected by `cancelStep` being a total
function defined in every state.) -/
theorem C8_cancel_idempotent_safe (s : WatchState) :
    (cancelStep s).abortTrigger = s.abortTrigger ∧
    cancelStep (cancelStep s) = cancelStep s ∧
    cancelStep initWatchState = initWatchState ∧
    (s.thread = ThreadState.doneAbort → cancelStep s = s) ∧
    timeoutStep (cancelStep s) = cancelStep s ∧
    cancelStep (timeoutStep s) = timeoutStep s := by
  obtain ⟨c, th, tr⟩ := s
  cases th <;> simp [cancelStep, timeoutStep, initWatchState]

/-- Witness for C8 at a state whose watchdog has already expired. -/
theorem C8_witness :
    cancelStep ⟨true, ThreadState.doneAbort, true⟩ =
      ⟨true, ThreadState.doneAbort, true⟩ :=
  (C8_cancel_idempotent_safe ⟨true, ThreadState.doneAbort, true⟩).2.2.2.1
    rfl

/-- C3: item-list parsing: a line splitting into exactly one field gives
that name with size hint `-1`; a line splitting into exactly two fields
gives the second field parsed as a base-10 integer; zero or more than two
fields is a fatal error; and in `main`, a fatal line stops the run before
any engine call — no items, no transfer.  Concretely,
`"a.txt\t100\nb.txt\n"` yields `[{a.txt,100},{b.txt,-1}]` in input
order, `"x\ty\tz\n"` is rejected producing no items, and empty input
yields the empty sequence. -/
theorem C3_item_list_parsing :
    (∀ line n : String, splitFields line = [n] →
      parseLine line = Except.ok ⟨n, -1⟩) ∧
    (∀ (line n sz : String) (v : Int), splitFields line = [n, sz] →
      follyToInt sz = some v → parseLine line = Except.ok ⟨n, v⟩) ∧
    (∀ line : String,
      splitFields line = [] ∨ 2 < (splitFields line).length →
      parseLine line = Except.error line) ∧
    readFileInfoList (getLines "a.txt\t100\nb.txt\n") =
      Except.ok [⟨"a.txt", 100⟩, ⟨"b.txt", -1⟩] ∧
    readFileInfoList (getLines "x\ty\tz\n") = Except.error "x\ty\tz" ∧
    readFileInfoList (getLines "") = Except.ok [] ∧
    (∀ (f : Flags) (eng : Engine) (input m : String),
      f.parse_transfer_log = false → f.destination ≠ "" → f.files = true →
      readFileInfoList (getLines input) = Except.error m →
      mainRun f eng input = ⟨[], Except.error m⟩) := by
  refine ⟨?_, ?_, ?_, by decide, by decide, by decide, ?_⟩
  · intro line n h
    simp [parseLine, h]
  · intro line n sz v h hv
    simp [parseLine, h, hv]
  · intro line h
    rcases h with h | h
    · simp [parseLine, h]
    · unfold parseLine
      rw [if_pos (Or.inr h)]
  · intro f eng input m h1 h2 h3 h4
    simp [mainRun, h1, h2, readStdinItems, h3, h4]

/-- Witness for C3 at the two-field line `"a.txt\t100"`. -/
theorem C3_witness :
    parseLine "a.txt\t100" = Except.ok ⟨"a.txt", 100⟩ :=
  C3_item_list_parsing.2.1 "a.txt\t100" "a.txt" "100" 100 (by decide)
    (by decide)

/-- C6: in each branch that runs a transfer (receive once, receive
forever, send), the trace calls `setUpAbort` strictly before the
transfer-running call starts and `cancelAbort` strictly after it
returns, for every engine outcome. -/
theorem C6_watchdog_brackets_transfer :
    ∀ (f : Flags) (eng : Engine) (input : String),
      f.parse_transfer_log = false →
      (f.destination = "" → eng.registerPortsResult ≠ 0) →
      (f.destination ≠ "" →
        ∃ fis, readStdinItems f.files input = Except.ok fis) →
      WatchdogBracket (mainRun f eng input).trace := by
  intro f eng input h1 h2 h3
  by_cases hd : f.destination = ""
  · have hn := h2 hd
    by_cases hp : 0 < f.protocol_version <;>
      cases hr : f.run_as_daemon <;>
        simp only [mainRun, h1, hd, hp, hr, Bool.false_eq_true,
          if_false, if_true, if_neg hn, ite_true, ite_false,
          not_false_eq_true, not_true_eq_false, List.append_assoc,
          List.cons_append, List.nil_append, if_neg, if_pos] <;>
      first
        | exact ⟨3, 4, 5, 6, rfl, rfl, rfl, rfl, by decide, by decide⟩
        | exact ⟨4, 5, 6, 7, rfl, rfl, rfl, rfl, by decide, by decide⟩
        | exact ⟨3, 4, 4, 5, rfl, rfl, rfl, rfl, by decide, by decide⟩
        | exact ⟨4, 5, 5, 6, rfl, rfl, rfl, rfl, by decide, by decide⟩
  · obtain ⟨fis, hfis⟩ := h3 hd
    by_cases hp : 0 < f.protocol_version <;>
      simp only [mainRun, h1, if_neg hd, hfis, hp, Bool.false_eq_true,
        if_false, if_true, ite_true, ite_false, List.append_assoc,
        List.cons_append, List.nil_append] <;>
      first
        | exact ⟨1, 6, 6, 7, rfl, rfl, rfl, rfl, by decide, by decide⟩
        | exact ⟨1, 7, 7, 8, rfl, rfl, rfl, rfl, by decide, by decide⟩

/-- Witness for C6: a send run with no explicit file list. -/
theorem C6_witness :
    WatchdogBracket (mainRun
      { run_as_daemon := true, directory := ".", files := false,
        destination := "host", parse_transfer_log := false,
        transfer_id := "", protocol_version := 0,
        abort_after_seconds := 5, include_regex := "",
        exclude_regex := "", prune_dir_regex := "" }
      { registerPortsResult := 1, receiverReportCode := 0,
        senderReportCode := 9, parseAndPrintResult := true } "").trace :=
  C6_watchdog_brackets_transfer _ _ "" rfl (by decide)
    (fun _ => ⟨[], rfl⟩)

/-- C7: for a synchronous transfer the exit status is exactly the
report's error code — receive-once returns the receiver report code,
send returns the sender report code, whatever they are — while
receive-forever never reads a report and its outcome is fixed at `OK`. -/
theorem C7_exit_status_equals_report_code :
    (∀ (f : Flags) (eng : Engine) (input : String),
      f.parse_transfer_log = false → f.destination = "" →
      f.run_as_daemon = false → eng.registerPortsResult ≠ 0 →
      (mainRun f eng input).outcome =
        Except.ok eng.receiverReportCode) ∧
    (∀ (f : Flags) (eng : Engine) (input : String) (fis : List FileInfo),
      f.parse_transfer_log = false → f.destination ≠ "" →
      readStdinItems f.files input = Except.ok fis →
      (mainRun f eng input).outcome = Except.ok eng.senderReportCode) ∧
    (∀ (f : Flags) (eng : Engine) (input : String),
      f.parse_transfer_log = false → f.destination = "" →
      f.run_as_daemon = true → eng.registerPortsResult ≠ 0 →
      (mainRun f eng input).outcome = Except.ok OK ∧
      countEv readsReport (mainRun f eng input).trace = 0) := by
  refine ⟨?_, ?_, ?_⟩
  · intro f eng input h1 h2 h3 h4
    simp [mainRun, h1, h2, h3, h4]
  · intro f eng input fis h1 h2 h3
    simp [mainRun, h1, h2, h3]
  · intro f eng input h1 h2 h3 h4
    constructor
    · simp [mainRun, h1, h2, h3, h4]
    · by_cases hp : 0 < f.protocol_version <;>
        simp [mainRun, h1, h2, h3, h4, hp, countEv, readsReport]

/-- Witness for C7: a receive-once run whose report code is `7` exits
with status `7`. -/
theorem C7_witness :
    (mainRun
      { run_as_daemon := false, directory := ".", files := false,
        destination := "", parse_transfer_log := false,
        transfer_id := "", protocol_version := 0,
        abort_after_seconds := 0, include_regex := "",
        exclude_regex := "", prune_dir_regex := "" }
      { registerPortsResult := 2, receiverReportCode := 7,
        senderReportCode := 4, parseAndPrintResult := true } "").outcome =
      Except.ok 7 :=
  C7_exit_status_equals_report_code.1 _ _ "" rfl rfl rfl (by decide)

/-- C10: `setProtocolVersion` is called on the receiver or the sender
exactly when the configured protocol version is strictly positive — so
for every value `≤ 0`, not just `0`, it is never called and the engine's
default version stays in effect. -/
theorem C10_set_protocol_version_iff_positive :
    (∀ (f : Flags) (eng : Engine) (input : String),
      f.parse_transfer_log = false → f.destination = "" →
      countEv isSetProtocolVersion (mainRun f eng input).trace =
        if 0 < f.protocol_version then 1 else 0) ∧
    (∀ (f : Flags) (eng : Engine) (input : String) (fis : List FileInfo),
      f.parse_transfer_log = false → f.destination ≠ "" →
      readStdinItems f.files input = Except.ok fis →
      countEv isSetProtocolVersion (mainRun f eng input).trace =
        if 0 < f.protocol_version then 1 else 0) := by
  constructor
  · intro f eng input h1 h2
    by_cases hp : 0 < f.protocol_version <;>
      by_cases hz : eng.registerPortsResult = 0 <;>
        cases hr : f.run_as_daemon <;>
          simp [mainRun, h1, h2, hp, hz, hr, countEv,
            isSetProtocolVersion]
  · intro f eng input fis h1 h2 h3
    by_cases hp : 0 < f.protocol_version <;>
      simp [mainRun, h1, h2, h3, hp, countEv, isSetProtocolVersion]

/-- Witness for C10: a receiver run configured with protocol version `-5`
never calls `setProtocolVersion`. -/
theorem C10_witness :
    countEv isSetProtocolVersion (mainRun
      { run_as_daemon := true, directory := ".", files := false,
        destination := "", parse_transfer_log := false,
        transfer_id := "", protocol_version := -5,
        abort_after_seconds := 0, include_regex := "",
        exclude_regex := "", prune_dir_regex := "" }
      { registerPortsResult := 1, receiverReportCode := 0,
        senderReportCode := 0, parseAndPrintResult := true } "").trace =
      if (0 : Int) < -5 then 1 else 0 :=
  C10_set_protocol_version_iff_positive.1 _ _ "" rfl rfl

/-- C9: a line with a trailing tab and nothing after it is not rejected:
the empty piece is dropped by the split, one field remains, and the item
is the same `{a.txt, -1}` a tab-less line produces. -/
theorem C9_trailing_tab_accepted :
    parseLine "a.txt\t" = Except.ok ⟨"a.txt", -1⟩ ∧
    parseLine "a.txt\t" = parseLine "a.txt" := by
  exact ⟨by decide, by decide⟩

end WdtCmdLine
